import Mathlib

/-!
Verification of the dynamic tool-execution and tool-composition subsystem
of the agent-lab repository (`src/agent_lab/tools.py` and
`src/agent_lab/config.py`), as a shallow embedding in Lean 4.

Modelling conventions:
* Python values that flow through the tools are modelled by `PyVal`;
  Python exceptions by the `PyError` error channel of `Except`.
* A Python source snippet handed to the custom-tool compiler is modelled
  by its parse outcome `PySource`: either a syntax error, or the list of
  top-level statements of the module.  Function bodies are restricted to
  the expression fragment the verified claims exercise (constants, names,
  `+`), with Python's name-resolution rule (locals before globals).
* The process-wide `sys.stdout` channel is modelled by a numeric channel
  identity inside `SysState`; `_execute_agent_code` is modelled as a
  state-passing function `executeAgentCode` whose second component is the
  value of `sys.stdout` after the call returns.
* Running an arbitrary code string inside the sandbox is not expressible;
  it is abstracted by a `RunOutcome` (either an exception with its textual
  description, or normal termination with the captured stdout text and
  the value of the namespace binding `_`), exactly the data the Python
  function inspects afterwards.
* Network collaborators (`_get_image_url`, `utility_agent_tool.run`) are
  abstracted as function parameters that may fail.
-/

namespace AgentLab

/-- A Python runtime value, restricted to the shapes the tools produce. -/
inductive PyVal where
  | none
  | bool (b : Bool)
  | int (n : Int)
  | str (s : String)
deriving DecidableEq

/-- A Python exception, identified by its class and message.
`baseException` stands for an exception deriving from `BaseException`
but not from `Exception` (`SystemExit`, `KeyboardInterrupt`), which an
`except Exception` handler does not catch. -/
inductive PyError where
  | syntaxError (msg : String)
  | valueError (msg : String)
  | typeError (msg : String)
  | nameError (msg : String)
  | remoteFailure (msg : String)
  | baseException (msg : String)
deriving DecidableEq

/-- Python's `str(...)` coercion on the values of `PyVal`; this is what the
LangChain layer applies to a tool function's return value to produce the
textual tool result. -/
def pyStr : PyVal → String
  | .none => "None"
  | .bool true => "True"
  | .bool false => "False"
  | .int n => toString n
  | .str s => s

/-- `PythonExecutionResult` from `tools.py`: container for results returned
by the Python interpreter tool. -/
structure PythonExecutionResult where
  output : String
  image_url : Option String
deriving DecidableEq

/-- `PythonExecutionResult.as_text`.  Python tests `if self.image_url:`, so
an absent or empty (falsy) url falls back to `output`. -/
def PythonExecutionResult.as_text (r : PythonExecutionResult) : String :=
  match r.image_url with
  | some url =>
      if url = "" then r.output
      else "Result of executing generated Python code is an image:\n\nIMAGE(" ++ url ++ ")"
  | Option.none => r.output

/-- `pre.isPrefixOf s` on character lists, modelling Python's
`str.startswith`. -/
def pyStartsWith : List Char → List Char → Bool
  | [], _ => true
  | _ :: _, [] => false
  | p :: ps, c :: cs => p == c && pyStartsWith ps cs

/-- Split a character list at the first `':'`, returning the part before
and the part after it, or `none` when no `':'` occurs. -/
def splitFirstColon : List Char → Option (List Char × List Char)
  | [] => Option.none
  | c :: cs =>
      if c = ':' then some ([], cs)
      else
        match splitFirstColon cs with
        | Option.none => Option.none
        | some (l, r) => some (c :: l, r)

/-- Python's `value.split(":", 2)` on character lists: at most two
splits, each at the leftmost remaining `':'`, so a payload beyond the
second `':'` is kept whole. -/
def pySplitTwo (cs : List Char) : List (List Char) :=
  match splitFirstColon cs with
  | Option.none => [cs]
  | some (l, r) =>
      match splitFirstColon r with
      | Option.none => [l, r]
      | some (m, t) => [l, m, t]

/-- Number of `':'` characters in a character list. -/
def colonCount : List Char → Nat
  | [] => 0
  | c :: cs => (if c = ':' then 1 else 0) + colonCount cs

/-- The sentinel line printed by the `pyplot_show` interception hook:
`print(f"base64image:{picture_name}:{encoded_string}")`. -/
def sentinelLine (id payload : String) : String :=
  "base64image:" ++ id ++ ":" ++ payload

/-- Outcome of actually running the (parsed, compiled) agent code string:
an `Exception`-derived raise during parse, compile or execution, carrying
its textual description `str(exc)` (this is what `except Exception`
catches); a `BaseException`-derived raise such as `SystemExit` from
`sys.exit()` or `KeyboardInterrupt`, which `except Exception` does *not*
catch; or normal termination with the text accumulated in the captured
stdout buffer and the namespace binding `_` (when it holds a
`PythonExecutionResult`). -/
inductive RunOutcome where
  | raised (msg : String)
  | raisedBase (msg : String)
  | finished (captured : String) (underscore : Option PythonExecutionResult)

/-- Process-wide interpreter state observed by the sandbox: the identity
of the object currently bound to `sys.stdout`. -/
structure SysState where
  stdout : Nat
deriving DecidableEq

/-- The post-processing `_execute_agent_code` performs on the captured
stdout text after the `try`/`finally` block: sentinel detection, the
three-way `value.split(":", 2)` unpack, image upload, and the `_`
fallback.  The unpack of fewer than three parts raises Python's
`ValueError`, modelled as the `Except` error channel. -/
def sandboxResult (upload : String → String → Except PyError String)
    (value : String) (underscore : Option PythonExecutionResult) :
    Except PyError String :=
  if pyStartsWith "base64image".data value.data then
    match pySplitTwo value.data with
    | [_, image_name, b64] =>
        match upload (String.mk b64) (String.mk image_name) with
        | .ok url => .ok (PythonExecutionResult.as_text ⟨"", some url⟩)
        | .error e => .error e
    | parts =>
        .error (.valueError
          ("not enough values to unpack (expected 3, got " ++ toString parts.length ++ ")"))
  else
    match underscore with
    | some r => .ok r.as_text
    | Option.none => .ok value

/-- `_execute_agent_code` from `tools.py`.  `redirected` is the identity
of the fresh `StringIO` buffer; the `finally` block restores
`sys.stdout = old_stdout` on every path, so the returned state carries
`old_stdout` whether the run raised or finished.  An `Exception`-derived
raise during parse, compile or execution is caught by `except Exception`
and rendered as the `"Error while executing Python code:"` text; a
`BaseException`-derived raise is *not* caught and propagates out of the
function (after the `finally` has restored stdout); the post-processing
of the captured buffer happens after the `finally`. -/
def executeAgentCode (upload : String → String → Except PyError String)
    (redirected : Nat) (st : SysState) (run : RunOutcome) :
    Except PyError String × SysState :=
  let old_stdout := st.stdout
  match run with
  | .raised msg =>
      let _during : SysState := ⟨redirected⟩
      (.ok ("Error while executing Python code:\n\n" ++ msg), ⟨old_stdout⟩)
  | .raisedBase msg =>
      let _during : SysState := ⟨redirected⟩
      (.error (.baseException msg), ⟨old_stdout⟩)
  | .finished captured underscore =>
      let _during : SysState := ⟨redirected⟩
      (sandboxResult upload captured underscore, ⟨old_stdout⟩)

/-! ## Custom tools: `compile_custom_tool` / `call_tool` -/

/-- An expression forming the body of a custom-tool function
(`return <expr>`), restricted to the fragment the claims exercise. -/
inductive PyExpr where
  | const (v : PyVal)
  | name (x : String)
  | add (a b : PyExpr)
deriving DecidableEq

/-- A top-level `def name(params): return body` in a custom-tool source. -/
structure PyFunc where
  name : String
  params : List String
  body : PyExpr
deriving DecidableEq

/-- A top-level statement of a parsed custom-tool source: a function
definition (an `ast.FunctionDef` node) or a statement of another kind
with no effect on the namespace (e.g. `pass`). -/
inductive PyStmt where
  | funcDef (f : PyFunc)
  | passStmt
deriving DecidableEq

/-- A custom-tool source string, modelled by its `ast.parse` outcome:
either a `SyntaxError` with its message, or the module body. -/
inductive PySource where
  | invalid (msg : String)
  | parsed (body : List PyStmt)
deriving DecidableEq

/-- The JSON-Schema subset used for tool argument schemas. -/
structure JsonSchema where
  properties : List (String × String)
  required : List String
  additionalProperties : Option Bool
deriving DecidableEq

/-- `CustomToolConfig` from `config.py`. -/
structure CustomToolConfig where
  name : String
  description : String
  code : PySource
  schema : JsonSchema
  params : Option (List (String × PyVal))
deriving DecidableEq

/-- A value bound in the execution namespace dictionary: a plain value
(from `static_params`) or a function object created by a `def`. -/
inductive NsVal where
  | val (v : PyVal)
  | func (f : PyFunc)
deriving DecidableEq

/-- The namespace dictionary.  Binding prepends; `List.lookup` finds the
most recent binding first, giving Python's overwrite semantics. -/
abbrev Namespace := List (String × NsVal)

/-- `[node for node in tree.body if isinstance(node, ast.FunctionDef)][0]`:
the first top-level function definition of the module, if any. -/
def firstFuncDef : List PyStmt → Option PyFunc
  | [] => Option.none
  | .funcDef f :: _ => some f
  | .passStmt :: rest => firstFuncDef rest

/-- `exec(compiled_code, namespace)`: execute the module body against the
namespace; each `def` (re)binds its name to the new function object. -/
def execModule : List PyStmt → Namespace → Namespace
  | [], ns => ns
  | .funcDef f :: rest, ns => execModule rest ((f.name, NsVal.func f) :: ns)
  | .passStmt :: rest, ns => execModule rest ns

/-- Evaluate a function-body expression.  Name resolution follows Python:
the local scope (the bound keyword arguments) is consulted before the
module namespace the function was defined in. -/
def evalExpr (globalsNs : Namespace) (localsNs : List (String × PyVal)) :
    PyExpr → Option PyVal
  | .const v => some v
  | .name x =>
      match localsNs.lookup x with
      | some v => some v
      | Option.none =>
          match globalsNs.lookup x with
          | some (NsVal.val v) => some v
          | _ => Option.none
  | .add a b =>
      match evalExpr globalsNs localsNs a, evalExpr globalsNs localsNs b with
      | some (.int m), some (.int n) => some (.int (m + n))
      | some (.str s), some (.str t) => some (.str (s ++ t))
      | _, _ => Option.none

/-- `namespace[function_name](**kwargs)`: calling a function object with
keyword arguments.  Python raises `TypeError` when a declared parameter is
missing from the keywords or an unexpected keyword is supplied; otherwise
the body is evaluated with the keywords as locals. -/
def callFunction (globalsNs : Namespace) (f : PyFunc)
    (kwargs : List (String × PyVal)) : Except PyError PyVal :=
  if f.params.all (fun p => (kwargs.lookup p).isSome) &&
      kwargs.all (fun kv => f.params.contains kv.1) then
    match evalExpr globalsNs kwargs f.body with
    | some v => .ok v
    | Option.none => .error (.nameError "name is not defined")
  else
    .error (.typeError "invalid keyword arguments")

/-- The namespace `call_tool` starts from: empty, then
`namespace.update(tool_config.params)` when static params are configured
(an empty mapping is falsy and leaves the namespace empty either way). -/
def initialNamespace (cfg : CustomToolConfig) : Namespace :=
  (cfg.params.getD []).map (fun p => (p.1, NsVal.val p.2))

/-- `call_tool` from `compile_custom_tool` in `tools.py`: on each
invocation it parses the configured source, scans for the first function
definition (raising `ValueError` when there is none), executes the whole
source against a namespace pre-populated with the static params, and
calls the binding left under the first definition's name with exactly the
supplied keyword arguments. -/
def call_tool (tool_config : CustomToolConfig)
    (kwargs : List (String × PyVal)) : Except PyError PyVal :=
  match tool_config.code with
  | .invalid msg => .error (.syntaxError msg)
  | .parsed body =>
      match firstFuncDef body with
      | Option.none =>
          .error (.valueError "Custom tool code must define at least one function.")
      | some f =>
          let ns := execModule body (initialNamespace tool_config)
          match ns.lookup f.name with
          | some (NsVal.func g) => callFunction ns g kwargs
          | _ => .error (.typeError "object is not callable")

/-- The uniform `StructuredTool` contract: name, description, invocation
function, argument schema. -/
structure StructuredTool where
  name : String
  description : Option String
  func : List (String × PyVal) → Except PyError PyVal
  args_schema : JsonSchema

/-- `compile_custom_tool` from `tools.py`: constructing the tool performs
no parsing, compilation or execution — it only closes `call_tool` over
the configuration and wraps it in a `StructuredTool`. -/
def compile_custom_tool (tool_config : CustomToolConfig) : StructuredTool :=
  ⟨tool_config.name, some tool_config.description,
    fun kwargs => call_tool tool_config kwargs, tool_config.schema⟩

/-- The textual tool result the agent sees: the LangChain layer applies
`str(...)` to the value returned by the tool function. -/
def callToolText (cfg : CustomToolConfig) (kwargs : List (String × PyVal)) :
    Except PyError String :=
  (call_tool cfg kwargs).map pyStr

/-! ## Remote utility tools and toolkit assembly -/

/-- The payload forwarded to a remote utility tool's `run`: the keyword
arguments as a structured mapping (when the descriptor declares an input
schema) or a single free-form value (otherwise). -/
inductive Query where
  | structured (kw : List (String × PyVal))
  | free (v : PyVal)

/-- The descriptor returned by `Toolkit(api_client=...).get_tool(name)`:
optional description fields, optional declared input schema, and the
blocking `run(input=..., config=...)` call, which returns a result
mapping or fails with the underlying network exception. -/
structure UtilityToolDescr where
  agent_description : Option String
  description : Option String
  input_schema : Option JsonSchema
  run : Query → Option (List (String × PyVal)) →
        Except PyError (List (String × PyVal))

/-- The query computed at the top of `run_tool`: the full keyword mapping
when the descriptor has an input schema, else `tool_input.get("input")`
(Python's dict `get` defaulting to `None`). -/
def runToolQuery (tool : UtilityToolDescr)
    (tool_input : List (String × PyVal)) : Query :=
  match tool.input_schema with
  | some _ => .structured tool_input
  | Option.none => .free ((tool_input.lookup "input").getD PyVal.none)

/-- `run_tool` from `create_utility_agent_tool` in `tools.py`: forward the
query to the remote `run` and return `results.get("output")` — the dict
`get` default, so a result mapping without an `output` field yields
Python `None`, not an exception; a failure of the remote call itself
propagates unchanged. -/
def run_tool (tool : UtilityToolDescr)
    (params : Option (List (String × PyVal)))
    (tool_input : List (String × PyVal)) : Except PyError PyVal :=
  let query := runToolQuery tool tool_input
  (tool.run query params).map
    (fun results => (results.lookup "output").getD PyVal.none)

/-- Python's `a or b` on optional strings: `a` unless it is absent or
empty (falsy), else `b`. -/
def pyOrStr (a b : Option String) : Option String :=
  match a with
  | some s => if s = "" then b else some s
  | Option.none => b

/-- The fallback schema installed when the descriptor declares none: a
single free-form `input` string and no additional properties. -/
def defaultUtilitySchema : JsonSchema :=
  ⟨[("input", "string")], [], some false⟩

/-- `create_utility_agent_tool` from `tools.py`.  `api_client` abstracts
`Toolkit(api_client=...).get_tool`. -/
def create_utility_agent_tool (api_client : String → UtilityToolDescr)
    (tool_name : String) (params : Option (List (String × PyVal)))
    (override_description : Option String) : StructuredTool :=
  let tool := api_client tool_name
  ⟨tool_name,
    pyOrStr override_description (pyOrStr tool.agent_description tool.description),
    fun kw => run_tool tool params kw,
    tool.input_schema.getD defaultUtilitySchema⟩

/-- `Workspace` from `config.py`. -/
structure Workspace where
  project_id : Option String
  space_id : Option String
deriving DecidableEq

/-- `RagToolConfig` from `config.py`. -/
structure RagToolConfig where
  vector_index_id : String
  description : String
deriving DecidableEq

/-- `_workspace_rag_params` from `tools.py`.  The Python guards are
truthiness tests (`if workspace.project_id:`), so an empty-string id is
omitted like an absent one. -/
def workspaceRagParams (workspace : Option Workspace) : List (String × PyVal) :=
  match workspace with
  | Option.none => []
  | some ws =>
      (match ws.project_id with
       | some p => if p = "" then [] else [("projectId", PyVal.str p)]
       | Option.none => []) ++
      (match ws.space_id with
       | some s => if s = "" then [] else [("spaceId", PyVal.str s)]
       | Option.none => [])

/-- `create_rag_tool` from `tools.py`: the `RAGQuery` utility tool with
the vector-index and workspace parameters and the configured description
override. -/
def create_rag_tool (api_client : String → UtilityToolDescr)
    (config : RagToolConfig) (workspace : Option Workspace) : StructuredTool :=
  create_utility_agent_tool api_client "RAGQuery"
    (some (("vectorIndexId", PyVal.str config.vector_index_id) ::
      workspaceRagParams workspace))
    (some config.description)

/-- The static argument schema of the Python interpreter tool. -/
def interpreterSchema : JsonSchema :=
  ⟨[("code", "string")], ["code"], Option.none⟩

/-- `create_python_interpreter_tool` from `tools.py`.  The sandbox's
behaviour on a given code string is abstracted by the oracle `pyRun`;
the process-wide stdout state is not part of the tool-call interface, so
the wrapper runs `executeAgentCode` from an arbitrary fixed state. -/
def create_python_interpreter_tool
    (upload : String → String → Except PyError String)
    (pyRun : String → RunOutcome)
    (_workspace : Option Workspace) : StructuredTool :=
  ⟨"PythonInterpreter",
    some ("Run Python code and return the console output. Use for isolated " ++
      "calculations, computations or data manipulation. In Python, the " ++
      "following modules are available: Use numpy, pandas, scipy and sympy " ++
      "for working with data. Use matplotlib to plot charts. Other Python " ++
      "libraries are also available -- however, prefer using the ones above. " ++
      "Prefer using qualified imports -- `import library; library.thing()` " ++
      "instead of `import thing from library`. Do not attempt to install " ++
      "libraries manually -- it will not work. Do not use this tool multiple " ++
      "times in a row, always write the full code you want to run in a " ++
      "single invocation. If you get an error running Python code, try to " ++
      "generate a better one that will pass. If the tool returns result " ++
      "that starts with IMAGE(, follow instructions for rendering images."),
    fun kw =>
      match kw.lookup "code" with
      | some (PyVal.str code) =>
          (executeAgentCode upload 1 ⟨0⟩ (pyRun code)).1.map PyVal.str
      | _ => .error (.typeError "missing code argument"),
    interpreterSchema⟩

/-- `assemble_toolkit` from `tools.py`: the RAG tool when a rag config is
given, then the Python interpreter when included, then Google search when
included, then one compiled custom tool per configuration entry, in
order.  No uniqueness check of any kind is performed on tool names. -/
def assemble_toolkit (api_client : String → UtilityToolDescr)
    (upload : String → String → Except PyError String)
    (pyRun : String → RunOutcome)
    (workspace : Option Workspace)
    (rag_config : Option RagToolConfig)
    (include_python : Bool) (include_google_search : Bool)
    (custom_tools : List CustomToolConfig) : List StructuredTool :=
  (match rag_config with
   | some cfg => [create_rag_tool api_client cfg workspace]
   | Option.none => []) ++
  (if include_python then [create_python_interpreter_tool upload pyRun workspace] else []) ++
  (if include_google_search then
    [create_utility_agent_tool api_client "GoogleSearch" Option.none Option.none] else []) ++
  custom_tools.map compile_custom_tool

/-! ## Helper lemmas -/

theorem data_app (s t : String) : (s ++ t).data = s.data ++ t.data := rfl

theorem colonCount_append (l r : List Char) :
    colonCount (l ++ r) = colonCount l + colonCount r := by
  induction l with
  | nil => simp [colonCount]
  | cons c cs ih =>
    show (if c = ':' then 1 else 0) + colonCount (cs ++ r) =
      ((if c = ':' then 1 else 0) + colonCount cs) + colonCount r
    rw [ih]
    omega

theorem splitFirstColon_of_count_zero (cs : List Char) (h : colonCount cs = 0) :
    splitFirstColon cs = Option.none := by
  induction cs with
  | nil => rfl
  | cons c cs ih =>
    by_cases hc : c = ':'
    · subst hc; simp [colonCount] at h
    · simp only [colonCount, if_neg hc, Nat.zero_add] at h
      simp [splitFirstColon, hc, ih h]

theorem splitFirstColon_eq_some (cs : List Char) :
    ∀ l r, splitFirstColon cs = some (l, r) →
      colonCount l = 0 ∧ cs = l ++ ':' :: r := by
  induction cs with
  | nil => intro l r h; simp [splitFirstColon] at h
  | cons c cs ih =>
    intro l r h
    by_cases hc : c = ':'
    · subst hc
      simp [splitFirstColon] at h
      obtain ⟨hl, hr⟩ := h
      subst hl; subst hr
      simp [colonCount]
    · simp [splitFirstColon, hc] at h
      cases hsc : splitFirstColon cs with
      | none => rw [hsc] at h; simp at h
      | some p =>
        obtain ⟨l0, r0⟩ := p
        rw [hsc] at h
        simp at h
        obtain ⟨hl, hr⟩ := h
        obtain ⟨h0, hcs⟩ := ih l0 r0 hsc
        subst hl; subst hr
        simp [colonCount, hc, h0, hcs]

theorem splitFirstColon_append (l r : List Char) (h : colonCount l = 0) :
    splitFirstColon (l ++ ':' :: r) = some (l, r) := by
  induction l with
  | nil => simp [splitFirstColon]
  | cons c cs ih =>
    by_cases hc : c = ':'
    · subst hc; simp [colonCount] at h
    · simp only [colonCount, if_neg hc, Nat.zero_add] at h
      simp [splitFirstColon, hc, ih h]

theorem pySplitTwo_of_count_le_one (cs : List Char) (h : colonCount cs ≤ 1) :
    pySplitTwo cs = [cs] ∨ ∃ l r, pySplitTwo cs = [l, r] := by
  cases hsc : splitFirstColon cs with
  | none => left; simp [pySplitTwo, hsc]
  | some p =>
    obtain ⟨l, r⟩ := p
    obtain ⟨h0, hcs⟩ := splitFirstColon_eq_some cs l r hsc
    have hcr : colonCount r = 0 := by
      subst hcs
      rw [colonCount_append] at h
      simp [colonCount, h0] at h
      omega
    right
    exact ⟨l, r, by simp [pySplitTwo, hsc, splitFirstColon_of_count_zero r hcr]⟩

theorem pySplitTwo_append (pre id payload : List Char)
    (hpre : colonCount pre = 0) (hid : colonCount id = 0) :
    pySplitTwo (pre ++ ':' :: (id ++ ':' :: payload)) = [pre, id, payload] := by
  simp [pySplitTwo, splitFirstColon_append _ _ hpre, splitFirstColon_append _ _ hid]

/-- `true` when no top-level function definition in the statement list is
named `n`. -/
def allFuncsNotNamed (n : String) : List PyStmt → Bool
  | [] => true
  | .funcDef f :: rest => (f.name != n) && allFuncsNotNamed n rest
  | .passStmt :: rest => allFuncsNotNamed n rest

/-- The statements after the first top-level function definition. -/
def afterFirstFunc : List PyStmt → List PyStmt
  | [] => []
  | .funcDef _ :: rest => rest
  | .passStmt :: rest => afterFirstFunc rest

theorem execModule_lookup_of_not_named (body : List PyStmt) :
    ∀ (ns : Namespace) (n : String), allFuncsNotNamed n body = true →
      (execModule body ns).lookup n = ns.lookup n := by
  induction body with
  | nil => intro ns n _; rfl
  | cons s rest ih =>
    intro ns n h
    cases s with
    | passStmt =>
      simp only [allFuncsNotNamed] at h
      simp only [execModule]
      exact ih ns n h
    | funcDef f =>
      simp only [allFuncsNotNamed, Bool.and_eq_true, bne_iff_ne] at h
      obtain ⟨h1, h2⟩ := h
      simp only [execModule]
      rw [ih _ n h2]
      have hne : (n == f.name) = false := beq_eq_false_iff_ne.mpr (Ne.symm h1)
      simp [List.lookup, hne]

theorem execModule_lookup_first (body : List PyStmt) :
    ∀ (ns : Namespace) (f : PyFunc), firstFuncDef body = some f →
      allFuncsNotNamed f.name (afterFirstFunc body) = true →
      (execModule body ns).lookup f.name = some (NsVal.func f) := by
  induction body with
  | nil => intro ns f h1 _; simp [firstFuncDef] at h1
  | cons s rest ih =>
    intro ns f h1 h2
    cases s with
    | passStmt =>
      simp only [firstFuncDef] at h1
      simp only [afterFirstFunc] at h2
      simp only [execModule]
      exact ih ns f h1 h2
    | funcDef g =>
      simp only [firstFuncDef, Option.some.injEq] at h1
      subst h1
      simp only [afterFirstFunc] at h2
      simp only [execModule]
      rw [execModule_lookup_of_not_named rest _ _ h2]
      simp [List.lookup]

theorem execModule_lookup_congr (body : List PyStmt) :
    ∀ (ns1 ns2 : Namespace) (n : String), ns1.lookup n = ns2.lookup n →
      (execModule body ns1).lookup n = (execModule body ns2).lookup n := by
  induction body with
  | nil => intro ns1 ns2 n h; exact h
  | cons s rest ih =>
    intro ns1 ns2 n h
    cases s with
    | passStmt =>
      simp only [execModule]
      exact ih _ _ _ h
    | funcDef g =>
      simp only [execModule]
      apply ih
      cases hng : n == g.name <;> simp [List.lookup, hng, h]

theorem firstFuncDef_lookup_congr (body : List PyStmt) :
    ∀ (ns1 ns2 : Namespace) (f : PyFunc), firstFuncDef body = some f →
      (execModule body ns1).lookup f.name = (execModule body ns2).lookup f.name := by
  induction body with
  | nil => intro ns1 ns2 f h; simp [firstFuncDef] at h
  | cons s rest ih =>
    intro ns1 ns2 f h
    cases s with
    | passStmt =>
      simp only [firstFuncDef] at h
      simp only [execModule]
      exact ih _ _ _ h
    | funcDef g =>
      simp only [firstFuncDef, Option.some.injEq] at h
      subst h
      simp only [execModule]
      apply execModule_lookup_congr
      simp [List.lookup]

theorem evalExpr_congr (g1 g2 : Namespace) (localsNs : List (String × PyVal))
    (h : ∀ y, localsNs.lookup y = Option.none → g1.lookup y = g2.lookup y) :
    ∀ e, evalExpr g1 localsNs e = evalExpr g2 localsNs e := by
  intro e
  induction e with
  | const v => rfl
  | name y =>
    simp only [evalExpr]
    cases hl : localsNs.lookup y with
    | some v => rfl
    | none => rw [h y hl]
  | add a b iha ihb =>
    simp only [evalExpr]
    rw [iha, ihb]

theorem callFunction_congr (ns1 ns2 : Namespace) (f : PyFunc)
    (kwargs : List (String × PyVal))
    (h : ∀ y, kwargs.lookup y = Option.none → ns1.lookup y = ns2.lookup y) :
    callFunction ns1 f kwargs = callFunction ns2 f kwargs := by
  simp only [callFunction]
  rw [evalExpr_congr ns1 ns2 kwargs h f.body]

theorem paramsNs_lookup_skip (psA psB : List (String × PyVal)) (x : String)
    (sv : PyVal) (y : String) (hy : y ≠ x) :
    List.lookup y ((psA ++ (x, sv) :: psB).map (fun p => (p.1, NsVal.val p.2))) =
      List.lookup y ((psA ++ psB).map (fun p => (p.1, NsVal.val p.2))) := by
  induction psA with
  | nil =>
    simp [List.lookup, beq_eq_false_iff_ne.mpr hy]
  | cons p ps ih =>
    show List.lookup y
        ((p.1, NsVal.val p.2) ::
          (ps ++ (x, sv) :: psB).map (fun q => (q.1, NsVal.val q.2))) =
      List.lookup y
        ((p.1, NsVal.val p.2) :: (ps ++ psB).map (fun q => (q.1, NsVal.val q.2)))
    cases hyp : y == p.1
    · simpa [List.lookup, hyp] using ih
    · simp [List.lookup, hyp]

/-- A static param whose name the caller also supplies as a keyword
argument is invisible to the invocation: `call_tool` behaves exactly as
if that static param were absent, for every source (even an unparseable
one), every entry-point function, every surrounding static-param list
and every keyword-argument list supplying the name. -/
theorem call_tool_static_param_shadowed
    (nm ds : String) (code : PySource) (sch : JsonSchema)
    (psA psB : List (String × PyVal)) (x : String) (sv : PyVal)
    (kwargs : List (String × PyVal))
    (hx : (kwargs.lookup x).isSome = true) :
    call_tool ⟨nm, ds, code, sch, some (psA ++ (x, sv) :: psB)⟩ kwargs =
      call_tool ⟨nm, ds, code, sch, some (psA ++ psB)⟩ kwargs := by
  cases code with
  | invalid m => rfl
  | parsed body =>
    have hagree : ∀ y, kwargs.lookup y = Option.none →
        List.lookup y (execModule body
          ((psA ++ (x, sv) :: psB).map (fun p => (p.1, NsVal.val p.2)))) =
        List.lookup y (execModule body
          ((psA ++ psB).map (fun p => (p.1, NsVal.val p.2)))) := by
      intro y hy
      by_cases hxy : y = x
      · subst hxy
        rw [hy] at hx
        simp at hx
      · exact execModule_lookup_congr body _ _ y
          (paramsNs_lookup_skip psA psB x sv y hxy)
    cases hf : firstFuncDef body with
    | none => simp [call_tool, hf]
    | some f =>
      simp only [call_tool, initialNamespace, Option.getD_some, hf]
      have hdisp := firstFuncDef_lookup_congr body
        ((psA ++ (x, sv) :: psB).map (fun p => (p.1, NsVal.val p.2)))
        ((psA ++ psB).map (fun p => (p.1, NsVal.val p.2))) f hf
      cases hl : List.lookup f.name
          (execModule body ((psA ++ psB).map (fun p => (p.1, NsVal.val p.2)))) with
      | none =>
        rw [hdisp, hl]
      | some nsv =>
        cases nsv with
        | val v =>
          rw [hdisp, hl]
        | func g =>
          rw [hdisp, hl]
          exact callFunction_congr _ _ g kwargs hagree

@[simp] theorem compile_custom_tool_name (cfg : CustomToolConfig) :
    (compile_custom_tool cfg).name = cfg.name := rfl

/-! ## Concrete fixtures used by counterexamples and witnesses -/

/-- Schema requiring integer `x` and `y`. -/
def sampleSchema : JsonSchema :=
  ⟨[("x", "integer"), ("y", "integer")], ["x", "y"], Option.none⟩

/-- A syntactically valid source whose module body contains no function
definition (e.g. the single statement `pass`). -/
def noFuncConfig : CustomToolConfig :=
  ⟨"nofunc", "no function here", .parsed [.passStmt], ⟨[], [], Option.none⟩,
    Option.none⟩

/-- `def add(x, y): return x + y`. -/
def addFunc : PyFunc := ⟨"add", ["x", "y"], .add (.name "x") (.name "y")⟩

/-- The custom tool of the concrete scenario: source `def add(x, y):
return x + y`, integer schema, no static params. -/
def addConfig : CustomToolConfig :=
  ⟨"add", "Add two integers.", .parsed [.funcDef addFunc], sampleSchema,
    Option.none⟩

/-- `def f(x): return x + 1` — the first definition in a source with two
functions of the same name. -/
def firstF : PyFunc := ⟨"f", ["x"], .add (.name "x") (.const (.int 1))⟩

/-- `def f(x): return x + 2` — a later definition with the same name. -/
def secondF : PyFunc := ⟨"f", ["x"], .add (.name "x") (.const (.int 2))⟩

/-- Source `def f(x): return x + 1` followed by `def f(x): return x + 2`:
two top-level definitions sharing one name. -/
def duplicateNameConfig : CustomToolConfig :=
  ⟨"dupfn", "two defs named f", .parsed [.funcDef firstF, .funcDef secondF],
    sampleSchema, Option.none⟩

/-- A remote descriptor stub with no declared schema whose `run` returns
an empty mapping. -/
def stubDescr : UtilityToolDescr :=
  ⟨Option.none, Option.none, Option.none, fun _ _ => .ok []⟩

/-- A `get_tool` stub returning `stubDescr` for every name. -/
def apiStub : String → UtilityToolDescr := fun _ => stubDescr

/-- An upload collaborator stub that always succeeds. -/
def uploadStub : String → String → Except PyError String :=
  fun _ _ => .ok "https://example.test/u"

/-- A sandbox run oracle stub: every code string finishes with empty
captured output. -/
def pyRunStub : String → RunOutcome := fun _ => .finished "" Option.none

/-- A custom tool named `dup`. -/
def dupA : CustomToolConfig :=
  ⟨"dup", "first", .parsed [.funcDef addFunc], sampleSchema, Option.none⟩

/-- A second, distinct custom tool also named `dup`. -/
def dupB : CustomToolConfig :=
  ⟨"dup", "second", .parsed [.funcDef addFunc], sampleSchema, Option.none⟩

/-- A remote descriptor whose `run` returns a mapping with no `output`
field. -/
def noOutputDescr : UtilityToolDescr :=
  ⟨Option.none, Option.none, Option.none,
    fun _ _ => .ok [("result", PyVal.str "hi")]⟩

/-- A remote descriptor whose `run` returns a mapping carrying an
`output` field. -/
def outputDescr : UtilityToolDescr :=
  ⟨Option.none, Option.none, Option.none,
    fun _ _ => .ok [("output", PyVal.str "res")]⟩

/-! ## Claim theorems -/

/-- Claim C1, counterexample: not every exception raised during
execution is absorbed.  The handler at tools.py:102 is `except
Exception`, which does not catch `BaseException`-derived raises: for
code equivalent to `raise SystemExit("bye")` (or `sys.exit("bye")`), the
exception escapes the handler and propagates out of
`_execute_agent_code` — the call yields the propagated exception, not a
returned error-text string. -/
theorem sandbox_execute_base_exception_escapes_cex :
    (executeAgentCode uploadStub 1 ⟨0⟩ (.raisedBase "bye")).1 =
      .error (PyError.baseException "bye") :=
  rfl

/-- Claim C1, amended: any exception deriving from `Exception` raised
during parse, compile or execution (with textual description `msg`) is
absorbed: `_execute_agent_code` returns normally with the text
`"Error while executing Python code:\n\n" ++ msg`, which contains `msg`
— in particular, for `raise ValueError("boom")` (whose description is
`"boom"`) the returned text contains `"boom"` and nothing propagates.  A
`BaseException`-derived raise such as `SystemExit` or
`KeyboardInterrupt`, however, is not caught by `except Exception` and
propagates out of the sandbox's execute operation. -/
theorem sandbox_execute_absorbs_exception_class :
    ∀ (upload : String → String → Except PyError String) (redirected : Nat)
      (st : SysState) (msg : String),
      ((executeAgentCode upload redirected st (.raised msg)).1 =
        .ok ("Error while executing Python code:\n\n" ++ msg) ∧
       ∃ l r, l ++ msg.data ++ r =
        ("Error while executing Python code:\n\n" ++ msg).data) ∧
      (executeAgentCode upload redirected st (.raisedBase msg)).1 =
        .error (PyError.baseException msg) := by
  intro upload redirected st msg
  refine ⟨⟨rfl, ⟨"Error while executing Python code:\n\n".data, [], ?_⟩⟩, rfl⟩
  simp [data_app]

/-- Claim C6: whatever the outcome of running the code — normal
termination, a runtime exception (caught by `except Exception` or not,
`SystemExit` included), or a parse failure — the process-wide
standard-output channel after `_execute_agent_code` returns is exactly
the one bound before the call. -/
theorem sandbox_execute_restores_stdout :
    ∀ (upload : String → String → Except PyError String) (redirected : Nat)
      (st : SysState) (run : RunOutcome),
      (executeAgentCode upload redirected st run).2 = st := by
  intro upload redirected st run
  cases st
  cases run <;> rfl

/-- Claim C7: for every id without a `:` and every payload — also one
containing `:` characters — encoding them as the sentinel line
`base64image:<id>:<payload>` and splitting the line at its first two `:`
characters recovers the prefix, the original id and the original payload
unchanged. -/
theorem sentinel_roundtrip :
    ∀ (id payload : String), colonCount id.data = 0 →
      pySplitTwo (sentinelLine id payload).data =
        ["base64image".data, id.data, payload.data] := by
  intro id payload h
  have h1 : "base64image:".data = "base64image".data ++ [':'] := by decide
  have h2 : ":".data = [':'] := by decide
  have hdata : (sentinelLine id payload).data =
      "base64image".data ++ ':' :: (id.data ++ ':' :: payload.data) := by
    simp [sentinelLine, data_app, h1, h2]
  rw [hdata]
  exact pySplitTwo_append _ _ _ (by decide) h

/-- Witness for C7 at a concrete id and a payload containing `:`. -/
theorem sentinel_roundtrip_witness :
    colonCount "plt-1a2b.png".data = 0 ∧
    pySplitTwo (sentinelLine "plt-1a2b.png" "QUJD:RUZH==").data =
      ["base64image".data, "plt-1a2b.png".data, "QUJD:RUZH==".data] :=
  ⟨by decide, sentinel_roundtrip "plt-1a2b.png" "QUJD:RUZH==" (by decide)⟩

/-- Claim C10: sentinel detection is purely prefix-based on the captured
stdout text: whenever that text starts with `base64image` — no matter
whether the plotting hook or the user's own `print` produced it, and
regardless of the `_` binding — the three-way split runs; if the text has
fewer than two `:` characters the unpack raises a `ValueError` that
propagates out of `_execute_agent_code` (an `Except.error`, not the
absorbed error text), and when the split yields three parts the image
upload is attempted and its outcome becomes the result. -/
theorem sentinel_detection_prefix_based :
    ∀ (upload : String → String → Except PyError String) (redirected : Nat)
      (st : SysState) (value : String) (u : Option PythonExecutionResult),
      pyStartsWith "base64image".data value.data = true →
      ((colonCount value.data ≤ 1 →
          ∃ msg, (executeAgentCode upload redirected st (.finished value u)).1 =
            .error (PyError.valueError msg)) ∧
       (∀ p nm b64, pySplitTwo value.data = [p, nm, b64] →
          (executeAgentCode upload redirected st (.finished value u)).1 =
            (upload (String.mk b64) (String.mk nm)).map
              (fun url => PythonExecutionResult.as_text ⟨"", some url⟩))) := by
  intro upload redirected st value u hstart
  constructor
  · intro hc
    rcases pySplitTwo_of_count_le_one value.data hc with h | ⟨l, r, h⟩ <;>
      · simp [executeAgentCode, sandboxResult, hstart, h]
  · intro p nm b64 h
    simp only [executeAgentCode, sandboxResult, hstart, if_true, h]
    cases hu : upload (String.mk b64) (String.mk nm) <;> simp [hu, Except.map]

/-- Witness for C10: the user-printed output `"base64image"` (no colons)
triggers detection and the propagated `ValueError`; the output
`"base64image:plt-x.png:QUJD"` triggers the upload attempt. -/
theorem sentinel_detection_prefix_based_witness :
    (pyStartsWith "base64image".data "base64image".data = true ∧
     colonCount "base64image".data ≤ 1 ∧
     ∃ msg, (executeAgentCode uploadStub 1 ⟨0⟩
         (.finished "base64image" Option.none)).1 =
       .error (PyError.valueError msg)) ∧
    (pyStartsWith "base64image".data "base64image:plt-x.png:QUJD".data = true ∧
     pySplitTwo "base64image:plt-x.png:QUJD".data =
       ["base64image".data, "plt-x.png".data, "QUJD".data] ∧
     (executeAgentCode uploadStub 1 ⟨0⟩
         (.finished "base64image:plt-x.png:QUJD" Option.none)).1 =
       (uploadStub (String.mk "QUJD".data) (String.mk "plt-x.png".data)).map
         (fun url => PythonExecutionResult.as_text ⟨"", some url⟩)) :=
  ⟨⟨by decide, by decide,
      (sentinel_detection_prefix_based uploadStub 1 ⟨0⟩ "base64image"
        Option.none (by decide)).1 (by decide)⟩,
   ⟨by decide, by decide,
      (sentinel_detection_prefix_based uploadStub 1 ⟨0⟩ "base64image:plt-x.png:QUJD"
        Option.none (by decide)).2 "base64image".data "plt-x.png".data
        "QUJD".data (by decide)⟩⟩

/-- Claim C2, counterexample: `compile_custom_tool` on a source with no
top-level function definition succeeds at toolkit-build time — it
produces a `StructuredTool` carrying the configured name and schema, with
no parse or scan performed — and the `ValueError` for the missing
function surfaces only when `invoke` is called, contradicting the claimed
hard failure at build time before any invoke. -/
theorem compile_custom_tool_no_build_failure_cex :
    (compile_custom_tool noFuncConfig).name = "nofunc" ∧
    (compile_custom_tool noFuncConfig).args_schema = noFuncConfig.schema ∧
    (compile_custom_tool noFuncConfig).func [] =
      .error (PyError.valueError
        "Custom tool code must define at least one function.") :=
  ⟨rfl, rfl, rfl⟩

/-- Claim C2, amended: the compiler parses, compiles and executes the
definition's source on each invocation, inside the tool function, not at
compile time; a definition whose source contains no top-level function
definition still builds into a ToolSpec, and every invocation of it fails
with `ValueError("Custom tool code must define at least one
function.")`. -/
theorem compile_custom_tool_no_function_fails_at_invoke :
    ∀ (cfg : CustomToolConfig) (body : List PyStmt)
      (kwargs : List (String × PyVal)),
      cfg.code = .parsed body → firstFuncDef body = Option.none →
      (compile_custom_tool cfg).name = cfg.name ∧
      (compile_custom_tool cfg).func kwargs =
        .error (PyError.valueError
          "Custom tool code must define at least one function.") := by
  intro cfg body kwargs hcode hfirst
  refine ⟨rfl, ?_⟩
  simp [compile_custom_tool, call_tool, hcode, hfirst]

/-- Witness for the amended C2 at the concrete no-function source. -/
theorem compile_custom_tool_no_function_fails_at_invoke_witness :
    noFuncConfig.code = .parsed [.passStmt] ∧
    firstFuncDef [.passStmt] = Option.none ∧
    ((compile_custom_tool noFuncConfig).name = noFuncConfig.name ∧
     (compile_custom_tool noFuncConfig).func [] =
       .error (PyError.valueError
         "Custom tool code must define at least one function.")) :=
  ⟨rfl, rfl,
    compile_custom_tool_no_function_fails_at_invoke noFuncConfig [.passStmt] []
      rfl rfl⟩

/-- Claim C3, counterexample: for the source `def f(x): return x + 1`
followed by `def f(x): return x + 2`, the compiled tool's invoke at
`x = 0` returns `2` — the later, same-named definition is called — while
calling the first-defined function directly returns `1`; so a later
function definition is not always ignored and the first-defined function
is not always the one called. -/
theorem invoke_uses_last_same_named_function_cex :
    (compile_custom_tool duplicateNameConfig).func [("x", PyVal.int 0)] =
      .ok (PyVal.int 2) ∧
    callFunction [] firstF [("x", PyVal.int 0)] = .ok (PyVal.int 1) :=
  ⟨rfl, rfl⟩

/-- Claim C3, amended: invoke resolves the *name* of the first top-level
function definition in the namespace left by executing the whole source,
and calls the resolved function with exactly the supplied keyword
arguments; when no later definition shares that name this is the
first-defined function itself, and later definitions with other names
are ignored.  Concretely, for `def add(x, y): return x + y` with no
static params, invoking with `x = 2, y = 3` yields the text `"5"`, the
textual representation of calling the function directly. -/
theorem invoke_dispatches_by_first_function_name :
    (∀ (cfg : CustomToolConfig) (body : List PyStmt) (f : PyFunc)
        (kwargs : List (String × PyVal)),
        cfg.code = .parsed body →
        firstFuncDef body = some f →
        allFuncsNotNamed f.name (afterFirstFunc body) = true →
        (compile_custom_tool cfg).func kwargs =
          callFunction (execModule body (initialNamespace cfg)) f kwargs) ∧
    callToolText addConfig [("x", PyVal.int 2), ("y", PyVal.int 3)] =
      .ok "5" := by
  constructor
  · intro cfg body f kwargs hcode hfirst hrest
    simp [compile_custom_tool, call_tool, hcode, hfirst,
      execModule_lookup_first body _ f hfirst hrest]
  · rfl

/-- Witness for the amended C3 at the concrete `add` tool. -/
theorem invoke_dispatches_by_first_function_name_witness :
    addConfig.code = .parsed [.funcDef addFunc] ∧
    firstFuncDef [.funcDef addFunc] = some addFunc ∧
    allFuncsNotNamed addFunc.name (afterFirstFunc [.funcDef addFunc]) = true ∧
    (compile_custom_tool addConfig).func
        [("x", PyVal.int 2), ("y", PyVal.int 3)] =
      callFunction (execModule [.funcDef addFunc] (initialNamespace addConfig))
        addFunc [("x", PyVal.int 2), ("y", PyVal.int 3)] :=
  ⟨rfl, rfl, rfl,
    invoke_dispatches_by_first_function_name.1 addConfig [.funcDef addFunc]
      addFunc [("x", PyVal.int 2), ("y", PyVal.int 3)] rfl rfl rfl⟩

/-- Claim C9: the keyword argument wins over a static param of the same
name, in full generality.  First conjunct: for every custom-tool
definition — any source, any entry-point function, any surrounding
static params — and every kwargs supplying the shared name `x`, invoking
the compiled tool with the static param `(x, sv)` present behaves
exactly as if that static param were absent: the static value is never
observed, because it is merged into the namespace (the call's globals)
while the keyword is supplied directly to the call.  Second conjunct:
the shared name, evaluated in the function's scope, resolves to the
caller-supplied keyword value `kv`, whatever the namespace binds — so
the function is called with the keyword value, not the static one. -/
theorem kwargs_shadow_static_params :
    (∀ (nm ds : String) (code : PySource) (sch : JsonSchema)
        (psA psB : List (String × PyVal)) (x : String) (sv : PyVal)
        (kwargs : List (String × PyVal)),
        (kwargs.lookup x).isSome = true →
        (compile_custom_tool
            ⟨nm, ds, code, sch, some (psA ++ (x, sv) :: psB)⟩).func kwargs =
          (compile_custom_tool
            ⟨nm, ds, code, sch, some (psA ++ psB)⟩).func kwargs) ∧
    (∀ (globalsNs : Namespace) (kwargs : List (String × PyVal))
        (x : String) (kv : PyVal),
        kwargs.lookup x = some kv →
        evalExpr globalsNs kwargs (.name x) = some kv) := by
  constructor
  · intro nm ds code sch psA psB x sv kwargs hx
    exact call_tool_static_param_shadowed nm ds code sch psA psB x sv kwargs hx
  · intro globalsNs kwargs x kv h
    simp [evalExpr, h]

/-- Witness for C9 at the source `def f(x): return x` with the static
param `x = 1` and the keyword argument `x = 2`: the invocation ignores
the static binding (equals the static-free invocation), returns the
keyword value `2`, and the name `x` resolves to `2` even in a namespace
binding `x` to `1`. -/
theorem kwargs_shadow_static_params_witness :
    (List.lookup "x" [("x", PyVal.int 2)]).isSome = true ∧
    (compile_custom_tool
        ⟨"t", "d", .parsed [.funcDef ⟨"f", ["x"], .name "x"⟩], sampleSchema,
          some [("x", PyVal.int 1)]⟩).func [("x", PyVal.int 2)] =
      (compile_custom_tool
        ⟨"t", "d", .parsed [.funcDef ⟨"f", ["x"], .name "x"⟩], sampleSchema,
          some []⟩).func [("x", PyVal.int 2)] ∧
    (compile_custom_tool
        ⟨"t", "d", .parsed [.funcDef ⟨"f", ["x"], .name "x"⟩], sampleSchema,
          some [("x", PyVal.int 1)]⟩).func [("x", PyVal.int 2)] =
      .ok (PyVal.int 2) ∧
    List.lookup "x" [("x", PyVal.int 2)] = some (PyVal.int 2) ∧
    evalExpr [("x", NsVal.val (PyVal.int 1))] [("x", PyVal.int 2)]
        (.name "x") = some (PyVal.int 2) :=
  ⟨rfl,
    kwargs_shadow_static_params.1 "t" "d"
      (.parsed [.funcDef ⟨"f", ["x"], .name "x"⟩]) sampleSchema [] [] "x"
      (PyVal.int 1) [("x", PyVal.int 2)] rfl,
    rfl, rfl,
    kwargs_shadow_static_params.2 [("x", NsVal.val (PyVal.int 1))]
      [("x", PyVal.int 2)] "x" (PyVal.int 2) rfl⟩

/-- Claim C4: for every configuration, the assembled toolkit lists the
tools in the fixed order — the retrieval (RAG) adapter when configured,
then the sandbox tool when included, then the search adapter when
included, then the custom tools in configuration order — and a disabled
provider is simply omitted without disturbing the rest.  The toolkit is a
function of the configuration values alone, so it cannot depend on the
order in which those values were put into the configuration. -/
theorem assemble_toolkit_order :
    ∀ (api_client : String → UtilityToolDescr)
      (upload : String → String → Except PyError String)
      (pyRun : String → RunOutcome) (workspace : Option Workspace)
      (rag_config : Option RagToolConfig)
      (include_python include_google_search : Bool)
      (custom_tools : List CustomToolConfig),
      (assemble_toolkit api_client upload pyRun workspace rag_config
          include_python include_google_search custom_tools).map
        (fun t => t.name) =
      (match rag_config with
       | some _ => ["RAGQuery"]
       | Option.none => []) ++
      (if include_python then ["PythonInterpreter"] else []) ++
      (if include_google_search then ["GoogleSearch"] else []) ++
      custom_tools.map (fun c => c.name) := by
  intro api_client upload pyRun workspace rag_config ip ig custom_tools
  cases rag_config <;> cases ip <;> cases ig <;>
    simp [assemble_toolkit, create_rag_tool, create_utility_agent_tool,
      create_python_interpreter_tool]

/-- Claim C8, counterexample: a configuration with two custom tools both
named `dup` is not rejected — assembly returns a toolkit whose name list
is `["dup", "dup"]`, both entries present, neither overwritten. -/
theorem assemble_toolkit_duplicate_names_cex :
    (assemble_toolkit apiStub uploadStub pyRunStub Option.none Option.none
        false false [dupA, dupB]).map (fun t => t.name) = ["dup", "dup"] :=
  rfl

/-- Claim C8, amended: `assemble_toolkit` performs no uniqueness check on
tool names: two custom tools sharing one name both appear in the
assembled toolkit, in configuration order, so duplicate names are neither
a configuration error nor silently collapsed. -/
theorem assemble_toolkit_keeps_duplicate_names :
    ∀ (api_client : String → UtilityToolDescr)
      (upload : String → String → Except PyError String)
      (pyRun : String → RunOutcome) (workspace : Option Workspace)
      (cA cB : CustomToolConfig),
      cA.name = cB.name →
      (assemble_toolkit api_client upload pyRun workspace Option.none
          false false [cA, cB]).map (fun t => t.name) =
        [cA.name, cA.name] := by
  intro api_client upload pyRun workspace cA cB h
  simp [assemble_toolkit, h]

/-- Witness for the amended C8 at the two concrete tools named `dup`. -/
theorem assemble_toolkit_keeps_duplicate_names_witness :
    dupA.name = dupB.name ∧
    (assemble_toolkit apiStub uploadStub pyRunStub Option.none Option.none
        false false [dupA, dupB]).map (fun t => t.name) = ["dup", "dup"] :=
  ⟨rfl, assemble_toolkit_keeps_duplicate_names apiStub uploadStub pyRunStub
    Option.none dupA dupB rfl⟩

/-- Claim C5, counterexample: when the remote call returns a mapping with
no `output` field, the adapted tool's invoke does not fail — it returns
normally with Python `None` (the dict-`get` default). -/
theorem run_tool_missing_output_returns_none_cex :
    run_tool noOutputDescr Option.none [("input", PyVal.str "q")] =
      .ok PyVal.none :=
  rfl

/-- Claim C5, amended: when the remote result mapping carries an `output`
field, invoke returns that field's value; when the field is absent,
invoke returns Python `None` as a normal result rather than failing; and
a failure of the remote call itself propagates to the caller as the
underlying exception, unchanged. -/
theorem run_tool_output_field_behavior :
    ∀ (tool : UtilityToolDescr) (params : Option (List (String × PyVal)))
      (tool_input : List (String × PyVal)),
      (∀ m, tool.run (runToolQuery tool tool_input) params = .ok m →
        m.lookup "output" = Option.none →
        run_tool tool params tool_input = .ok PyVal.none) ∧
      (∀ m v, tool.run (runToolQuery tool tool_input) params = .ok m →
        m.lookup "output" = some v →
        run_tool tool params tool_input = .ok v) ∧
      (∀ e, tool.run (runToolQuery tool tool_input) params = .error e →
        run_tool tool params tool_input = .error e) := by
  intro tool params tool_input
  refine ⟨?_, ?_, ?_⟩
  · intro m hrun hmiss
    simp [run_tool, hrun, hmiss, Except.map]
  · intro m v hrun hhit
    simp [run_tool, hrun, hhit, Except.map]
  · intro e hrun
    simp [run_tool, hrun, Except.map]

/-- Witness for the amended C5 at a concrete descriptor whose result
mapping carries `output`. -/
theorem run_tool_output_field_behavior_witness :
    outputDescr.run (runToolQuery outputDescr []) Option.none =
      .ok [("output", PyVal.str "res")] ∧
    List.lookup "output" [("output", PyVal.str "res")] =
      some (PyVal.str "res") ∧
    run_tool outputDescr Option.none [] = .ok (PyVal.str "res") :=
  ⟨rfl, rfl,
    (run_tool_output_field_behavior outputDescr Option.none []).2.1
      [("output", PyVal.str "res")] (PyVal.str "res") rfl rfl⟩

end AgentLab
